import Mathlib

/-!
A shallow embedding of `convert.py` (home-data utility/sensor CSV converter)
and proofs about its behavior.

Files already read by Python's `csv` module are modelled as `List Row`
(one `Row` = list of string fields per line).  Python exceptions are
modelled by the `PyErr` type; `sys.exit()` is `PyErr.systemExit`, which —
unlike the others — is not an `Exception` subclass in Python and therefore
is not caught by an `except Exception` clause.  Python `float` values are
modelled as exact rationals (`Rat`): the parser `pyFloat` accepts the
decimal fragment of Python's `float()` grammar, and `formatPyFloat` models
`str()` of a float for values that are short exact decimals (the only
values this development evaluates).
-/

set_option autoImplicit false

namespace HomeData

/-- One CSV row: the list of its fields, as produced by Python's `csv.reader`. -/
abbrev Row := List String

/-- One CSV file, already tokenised into rows. -/
abbrev CsvFile := List Row

/-- Python exceptions that the code in `convert.py` can raise.
`systemExit` models `sys.exit()`: in Python it raises `SystemExit`, which
derives from `BaseException` but not from `Exception`. -/
inductive PyErr where
  /-- `StopIteration`: `next()` on an exhausted reader. -/
  | stopIteration : PyErr
  /-- `ValueError`: `float()` applied to a non-numeric string. -/
  | valueError (s : String) : PyErr
  /-- `IndexError`: out-of-bounds `row[i]` or `data[0]`/`data[-1]`. -/
  | indexError : PyErr
  /-- `KeyError`: dict lookup failure (`PSE_USAGE_TYPES[usage_type]`). -/
  | keyError (k : String) : PyErr
  /-- `SystemExit` raised by `sys.exit()` after printing `msg`. -/
  | systemExit (msg : String) : PyErr
  deriving DecidableEq, Repr

/-- Decidable equality on `Except`, so that concrete runs can be settled
by `decide`. -/
instance {ε α : Type} [DecidableEq ε] [DecidableEq α] :
    DecidableEq (Except ε α)
  | .ok a, .ok b =>
    if h : a = b then .isTrue (h ▸ rfl)
    else .isFalse (fun hh => h (Except.ok.inj hh))
  | .error e, .error f =>
    if h : e = f then .isTrue (h ▸ rfl)
    else .isFalse (fun hh => h (Except.error.inj hh))
  | .ok _, .error _ => .isFalse (fun hh => Except.noConfusion hh)
  | .error _, .ok _ => .isFalse (fun hh => Except.noConfusion hh)

/-- Does this raised object have class `Exception` (so that
`except Exception` catches it)?  `SystemExit` does not. -/
def PyErr.isException : PyErr → Bool
  | .systemExit _ => false
  | _ => true

/-- A rough rendering of Python's `f"{e}"` on an exception; the exact text
is irrelevant to every claim, only that a description is carried. -/
def PyErr.msg : PyErr → String
  | .stopIteration => "StopIteration"
  | .valueError s => "could not convert string to float: " ++ s
  | .indexError => "list index out of range"
  | .keyError k => k
  | .systemExit m => m

/-- Python `row[i]` on a list (non-negative index): `IndexError` when out of
bounds. -/
def pyGet {α : Type} (l : List α) (i : Nat) : Except PyErr α :=
  match l.get? i with
  | some x => .ok x
  | none => .error .indexError

/-- Total variant of `pyGet` used on the specification side of proofs. -/
def pyGetD (r : Row) (i : Nat) : String :=
  (r.get? i).getD ""

/-- Python `data[0]`. -/
def pyFirst {α : Type} : List α → Except PyErr α
  | [] => .error .indexError
  | x :: _ => .ok x

/-- Python `data[-1]`. -/
def pyLast {α : Type} : List α → Except PyErr α
  | [] => .error .indexError
  | [x] => .ok x
  | _ :: x :: xs => pyLast (x :: xs)

/-- Split a character list at every character satisfying `p`, keeping empty
chunks — the behavior of Python's `str.split(sep)` for a one-character
separator (with `p` matching exactly that character). -/
def splitChP (p : Char → Bool) : List Char → List (List Char)
  | [] => [[]]
  | c :: cs =>
    if p c then [] :: splitChP p cs
    else
      match splitChP p cs with
      | [] => [[c]]
      | chunk :: rest => (c :: chunk) :: rest

/-- Python `s.split(c)` for a single-character separator `c`. -/
def pySplitOn (c : Char) (s : String) : List String :=
  (splitChP (fun d => d == c) s.toList).map String.mk

/-- Python `s.split()` (no argument): split on whitespace runs, dropping
empty chunks. -/
def pySplitWs (s : String) : List String :=
  ((splitChP Char.isWhitespace s.toList).map String.mk).filter
    (fun chunk => !(chunk == ""))

/-- Python `s.replace('-', '')`: remove every dash (for a one-character
pattern and empty replacement, `str.replace` is exactly a filter). -/
def stripDash (s : String) : String :=
  String.mk (s.toList.filter (fun c => !(c == '-')))

/-- Python `s.lower()` (ASCII, which is all the data contains). -/
def pyLower (s : String) : String :=
  String.mk (s.toList.map Char.toLower)

/-- Python `s.endswith(suffix)`. -/
def pyEndsWith (s suffix : String) : Bool :=
  suffix.toList.isSuffixOf s.toList

/-- Python `os.path.basename`: everything after the last `/`. -/
def basename (p : String) : String :=
  (pySplitOn '/' p).getLastD ""

/-- Value of a nonempty digit string. -/
def digitsVal (l : List Char) : Nat :=
  l.foldl (fun n c => n * 10 + (c.toNat - 48)) 0

/-- A Python `float` value, represented by the exact decimal it was
parsed from: the value `num / 10 ^ exp10`.  `convert.py` performs no
arithmetic on parsed numbers — every float is parsed from a short decimal
string by `float()`, stored, and printed by `str()` — and on short
decimals that round-trip is the identity (up to stripping redundant
zeros), so the exact decimal pair is a faithful model of the value. -/
structure PyFloat where
  num : Int
  exp10 : Nat
  deriving DecidableEq, Repr

/-- The rational value a `PyFloat` denotes. -/
def PyFloat.val (f : PyFloat) : Rat :=
  (f.num : Rat) / ((10 : Rat) ^ f.exp10)

/-- The decimal fragment of Python's `float()` grammar: optional sign, then
digits with at most one dot and at least one digit overall. -/
def pyFloatCore (l : List Char) : Option PyFloat :=
  let signed : Int × List Char :=
    match l with
    | '-' :: rest => (-1, rest)
    | '+' :: rest => (1, rest)
    | _ => (1, l)
  match splitChP (fun d => d == '.') signed.2 with
  | [ip] =>
    if ip.all Char.isDigit && !ip.isEmpty then
      some ⟨signed.1 * (digitsVal ip : Int), 0⟩
    else none
  | [ip, fp] =>
    if ip.all Char.isDigit && fp.all Char.isDigit &&
        (!ip.isEmpty || !fp.isEmpty) then
      some ⟨signed.1 * ((digitsVal ip * 10 ^ fp.length + digitsVal fp : Nat) : Int),
            fp.length⟩
    else none
  | _ => none

/-- Python `float(s)`: strips surrounding whitespace, then parses the
decimal literal; raises `ValueError` otherwise.  (Exotic accepted forms —
exponents, `inf`, `nan`, underscores — are outside the data this program
sees and are modelled as errors.) -/
def pyFloat (s : String) : Except PyErr PyFloat :=
  let trimmed :=
    ((s.toList.dropWhile Char.isWhitespace).reverse.dropWhile
      Char.isWhitespace).reverse
  match pyFloatCore trimmed with
  | some q => .ok q
  | none => .error (.valueError s)

/-- Decimal digits of a natural number (own definition to keep kernel
evaluation simple). -/
def natDigitsAux : Nat → Nat → List Char
  | 0, _ => []
  | fuel + 1, n =>
    if n < 10 then [Nat.digitChar n]
    else natDigitsAux fuel (n / 10) ++ [Nat.digitChar (n % 10)]

/-- A natural number printed in decimal. -/
def natStr (n : Nat) : String :=
  String.mk (natDigitsAux (n + 1) n)

/-- Python `str()` of a float holding a short exact decimal: optional
sign, integer part, a dot, then the fractional digits with redundant
trailing zeros removed but at least one digit kept (`str(2.0)` is
`"2.0"`, `str(float("1.50"))` is `"1.5"`). -/
def formatPyFloat (f : PyFloat) : String :=
  let n := f.num.natAbs
  let p := 10 ^ f.exp10
  let fracRaw := natDigitsAux (n % p + 1) (n % p)
  let frac :=
    ((List.replicate (f.exp10 - fracRaw.length) '0' ++ fracRaw).reverse.dropWhile
      (fun c => c == '0')).reverse
  (if f.num < 0 then "-" else "") ++ natStr (n / p) ++ "." ++
    (if frac.isEmpty then "0" else String.mk frac)

/-! ## The accumulators

`collections.defaultdict(list)` is an insertion-ordered map from string
keys to lists; it is modelled as an association list.  `a[k].append(x)`
creates the key (at the end, with `[x]`) when absent, otherwise appends to
the existing entry in place. -/

/-- An insertion-ordered `defaultdict(list)`. -/
abbrev Accum (α : Type) := List (String × List α)

/-- `a[k].append(x)` on a `defaultdict(list)`. -/
def Accum.append1 {α : Type} : Accum α → String → α → Accum α
  | [], k, x => [(k, [x])]
  | (k0, v) :: rest, k, x =>
    if k0 == k then (k0, v ++ [x]) :: rest
    else (k0, v) :: Accum.append1 rest k x

/-- Total number of records stored across all keys of an accumulator. -/
def Accum.size {α : Type} (a : Accum α) : Nat :=
  (a.map (fun kv => kv.2.length)).sum

/-- A provider usage record `(start, end, usage)` as built by
`parse_pse_csv`. -/
abbrev UsageRecord := String × String × PyFloat

/-- A sensor record `(timestamp, temp, humidity)` as built by
`parse_govee_csv`. -/
abbrev SensorRecord := String × PyFloat × PyFloat

/-! ## `parse_pse_csv` -/

/-- The loop condition `len(row) > 0 and row[0] == "TYPE"`. -/
def rowIsTypeHeader : Row → Bool
  | [] => false
  | f :: _ => f == "TYPE"

/-- The `while True: row = next(csv_reader); if … break` loop: drop rows up
to and including the first whose first field is `"TYPE"`, returning the
remaining rows; `StopIteration` when the reader is exhausted first. -/
def skipToTypeHeader : CsvFile → Except PyErr CsvFile
  | [] => .error .stopIteration
  | row :: rest =>
    if rowIsTypeHeader row then .ok rest else skipToTypeHeader rest

/-- The body of `parse_pse_csv`'s data loop, with the source's evaluation
order (`row[1]`, `row[2]`, `row[3]`, `float(row[4])`, then `row[0]`). -/
def parsePseRow (usage_data : Accum UsageRecord) (row : Row) :
    Except PyErr (Accum UsageRecord) := do
  let date ← pyGet row 1
  let startT := date ++ " " ++ (← pyGet row 2)
  let endT := date ++ " " ++ (← pyGet row 3)
  let usage ← pyFloat (← pyGet row 4)
  let label ← pyGet row 0
  return usage_data.append1 label (startT, endT, usage)

/-- `parse_pse_csv(csv_path, usage_data)`: skip the preamble through the
`TYPE` header row, then accumulate every data row. -/
def parse_pse_csv (file : CsvFile) (usage_data : Accum UsageRecord) :
    Except PyErr (Accum UsageRecord) := do
  let rest ← skipToTypeHeader file
  rest.foldlM parsePseRow usage_data

/-! ## `parse_govee_csv` -/

/-- `os.path.basename(csv_path).split('_')[0].lower()` — the raw sensor
name (the `[0]` index never faults: `split` always returns at least one
chunk). -/
def goveeName (csv_path : String) : String :=
  pyLower ((pySplitOn '_' (basename csv_path)).headD "")

/-- The body of `parse_govee_csv`'s data loop. -/
def parseGoveeRow (name : String) (govee_data : Accum SensorRecord)
    (row : Row) : Except PyErr (Accum SensorRecord) := do
  let timestamp ← pyGet row 0
  let temp ← pyFloat (← pyGet row 1)
  let humidity ← pyFloat (← pyGet row 2)
  return govee_data.append1 (name ++ "_temp") (timestamp, temp, humidity)

/-- `parse_govee_csv(csv_path, govee_data)`: `next()` discards the first
row unconditionally (`StopIteration` on an empty file), then every
remaining row is accumulated under the filename-derived series key. -/
def parse_govee_csv (csv_path : String) (file : CsvFile)
    (govee_data : Accum SensorRecord) : Except PyErr (Accum SensorRecord) :=
  match file with
  | [] => .error .stopIteration
  | _ :: rest => rest.foldlM (parseGoveeRow (goveeName csv_path)) govee_data

/-! ## `get_data_range_dates` -/

/-- `get_data_range_dates(data)`: `data[0][0]` and `data[-1][0]`, then
`.split()[0].replace('-', '')` on each.  The record's leading field is
accessed through the projection `field0` (the Python code is duck-typed
over tuples). -/
def get_data_range_dates {ρ : Type} (field0 : ρ → String) (data : List ρ) :
    Except PyErr (String × String) := do
  let firstRec ← pyFirst data
  let lastRec ← pyLast data
  let first_date ← pyFirst (pySplitWs (field0 firstRec))
  let last_date ← pyFirst (pySplitWs (field0 lastRec))
  return (stripDash first_date, stripDash last_date)

/-! ## `convert_files` -/

/-- One input path together with the two readings of its bytes that
`convert_files` can attempt: as a zip container (`some` entries — name and
CSV rows of each — when the bytes are a valid zip, `none` otherwise) and
as CSV rows.  Entry order models the `os.listdir` order of the extracted
directory. -/
structure InputFile where
  path : String
  zipEntries : Option (List (String × CsvFile))
  csvRows : CsvFile

/-- `extract_zip`: on a bad zip it prints an error and calls `sys.exit()`
(both `except` arms of the source end in `sys.exit()`), so the failure is
`SystemExit`, not an `Exception`. -/
def extract_zip (f : InputFile) :
    Except PyErr (List (String × CsvFile)) :=
  match f.zipEntries with
  | some entries => .ok entries
  | none => .error (.systemExit "Error: File is not a zip file or is corrupted")

/-- The two accumulators of a `convert_files` run. -/
structure ConvertState where
  pse_data : Accum UsageRecord
  govee_data : Accum SensorRecord
  deriving DecidableEq

/-- The `if path.endswith(".zip")` branch: extract and parse every `.csv`
entry with `parse_pse_csv`. -/
def processZipBranch (f : InputFile) (st : ConvertState) :
    Except PyErr ConvertState :=
  if pyEndsWith f.path ".zip" then do
    let entries ← extract_zip f
    let pse ← entries.foldlM
      (fun acc entry =>
        if pyEndsWith entry.1 ".csv" then parse_pse_csv entry.2 acc
        else .ok acc)
      st.pse_data
    return { st with pse_data := pse }
  else .ok st

/-- The `if path.endswith(".csv")` branch: parse with `parse_govee_csv`. -/
def processCsvBranch (f : InputFile) (st : ConvertState) :
    Except PyErr ConvertState :=
  if pyEndsWith f.path ".csv" then do
    let govee ← parse_govee_csv f.path f.csvRows st.govee_data
    return { st with govee_data := govee }
  else .ok st

/-- Per-path work of `convert_files`' input loop: the two suffix checks are
separate `if` statements, run one after the other — not `if/elif`. -/
def processFile (f : InputFile) (st : ConvertState) :
    Except PyErr ConvertState := do
  processCsvBranch f (← processZipBranch f st)

/-- The entire input loop of `convert_files`. -/
def runParseStage (files : List InputFile) : Except PyErr ConvertState :=
  files.foldlM (fun st f => processFile f st) ⟨[], []⟩

/-- `PSE_USAGE_TYPES`: usage-type label ↦ (output name, units). -/
def PSE_USAGE_TYPES : List (String × String × String) :=
  [("Electric usage", ("electricity", "kwh")),
   ("Natural gas usage", ("gas", "ccf"))]

/-- `PSE_USAGE_TYPES[usage_type]`: `KeyError` when absent. -/
def lookupUsageType (usage_type : String) :
    Except PyErr (String × String) :=
  match PSE_USAGE_TYPES.find? (fun kv => kv.1 == usage_type) with
  | some kv => .ok kv.2
  | none => .error (.keyError usage_type)

/-- One output CSV file, as data: its filename, its header row and its
data rows (each already rendered to string fields, floats via `str()`). -/
structure OutFile where
  name : String
  header : List String
  rows : List (List String)
  deriving DecidableEq

/-- `csv.writer` rendering of one usage record. -/
def renderUsageRow (r : UsageRecord) : List String :=
  [r.1, r.2.1, formatPyFloat r.2.2]

/-- `csv.writer` rendering of one sensor record. -/
def renderSensorRow (r : SensorRecord) : List String :=
  [r.1, formatPyFloat r.2.1, formatPyFloat r.2.2]

/-- The "Write PSE outputs" loop.  Iteration is over the dict in insertion
order; each completed file is appended to `outs` before the next key is
examined, so a failure part-way keeps the files already written. -/
def writePseLoop : Accum UsageRecord → List OutFile →
    List OutFile × Option PyErr
  | [], outs => (outs, none)
  | (usage_type, data) :: rest, outs =>
    match lookupUsageType usage_type with
    | .error e => (outs, some e)
    | .ok (type_name, units) =>
      match get_data_range_dates (fun (r : UsageRecord) => r.1) data with
      | .error e => (outs, some e)
      | .ok (first_date, last_date) =>
        writePseLoop rest (outs ++
          [{ name := type_name ++ "_" ++ first_date ++ "_" ++ last_date ++ ".csv",
             header := ["start", "end", "usage_" ++ units],
             rows := data.map renderUsageRow }])

/-- The "Write Govee outputs" loop. -/
def writeGoveeLoop : Accum SensorRecord → List OutFile →
    List OutFile × Option PyErr
  | [], outs => (outs, none)
  | (sensor, data) :: rest, outs =>
    match get_data_range_dates (fun (r : SensorRecord) => r.1) data with
    | .error e => (outs, some e)
    | .ok (first_date, last_date) =>
      writeGoveeLoop rest (outs ++
        [{ name := sensor ++ "_" ++ first_date ++ "_" ++ last_date ++ ".csv",
           header := ["timestamp", "temp_degf", "relative_humidity"],
           rows := data.map renderSensorRow }])

/-- Result of a `convert_files` run: the output files actually written (in
order), and the uncaught exception, when one aborted the run. -/
structure RunResult where
  written : List OutFile
  error : Option PyErr
  deriving DecidableEq

/-- `convert_files(files, outdir)`: the input loop, then the two output
loops.  No output file is written before the input loop has consumed every
input. -/
def convert_files (files : List InputFile) : RunResult :=
  match runParseStage files with
  | .error e => ⟨[], some e⟩
  | .ok st =>
    match writePseLoop st.pse_data [] with
    | (outs, some e) => ⟨outs, some e⟩
    | (outs, none) =>
      match writeGoveeLoop st.govee_data outs with
      | (outs2, e) => ⟨outs2, e⟩

/-! ## Rendering output files to text lines -/

/-- Does `csv.writer` need to quote this field? -/
def csvNeedsQuote (s : String) : Bool :=
  s.toList.any (fun c => c == ',' || c == '\"' || c == '\n' || c == '\r')

/-- One field as `csv.writer` emits it. -/
def csvField (s : String) : String :=
  if csvNeedsQuote s then
    "\"" ++ String.mk (s.toList.flatMap
      (fun c => if c == '\"' then ['\"', '\"'] else [c])) ++ "\""
  else s

/-- Join rendered fields with commas. -/
def csvLine (fields : List String) : String :=
  String.intercalate "," (fields.map csvField)

/-- The text lines of an output file: header line, then one line per row. -/
def outFileLines (f : OutFile) : List String :=
  csvLine f.header :: f.rows.map csvLine

/-! ## `lambda_handler` -/

/-- What the handler invocation returns — or fails to return:
`escaped e` means the raised object `e` was not caught by the
`except Exception` clause and propagated out of `lambda_handler`. -/
inductive HandlerOutcome where
  | success (bucket : String) (keys : List String) : HandlerOutcome
  | failure (errMsg : String) : HandlerOutcome
  | escaped (e : PyErr) : HandlerOutcome
  deriving DecidableEq

/-- Observable effects of one handler invocation. -/
structure LambdaRun where
  outcome : HandlerOutcome
  /-- Was `s3.delete_object` executed on the source object? -/
  deletedSource : Bool
  /-- Keys uploaded to the output bucket before the run ended. -/
  uploaded : List String
  deriving DecidableEq

/-- The upload loop: each produced file ending in `.csv` is uploaded in
turn; `uploadErr name` injects the transport failure, if any, that
uploading `name` would raise. -/
def uploadLoop (uploadErr : String → Option PyErr) :
    List OutFile → List String → List String × Option PyErr
  | [], keys => (keys, none)
  | f :: rest, keys =>
    if pyEndsWith f.name ".csv" then
      match uploadErr f.name with
      | some e => (keys, some e)
      | none => uploadLoop uploadErr rest (keys ++ [f.name])
    else uploadLoop uploadErr rest keys

/-- Route a raised object through the handler's `except Exception` clause:
an `Exception` becomes the structured 500 result; anything else (namely
`SystemExit`) escapes. -/
def handlerCatch (e : PyErr) (deleted : Bool) (uploaded : List String) :
    LambdaRun :=
  if e.isException then ⟨.failure e.msg, deleted, uploaded⟩
  else ⟨.escaped e, deleted, uploaded⟩

/-- `lambda_handler`: download the source object (`download` is its result
— boto3 failures are ordinary `Exception`s), run `convert_files` on it,
upload every produced `.csv`, and only then delete the source object.
Every step sits inside one `try`/`except Exception`. -/
def lambda_handler (outbucket : String) (download : Except PyErr InputFile)
    (uploadErr : String → Option PyErr) : LambdaRun :=
  match download with
  | .error e => handlerCatch e false []
  | .ok file =>
    let res := convert_files [file]
    match res.error with
    | some e => handlerCatch e false []
    | none =>
      match uploadLoop uploadErr res.written [] with
      | (keys, some e) => handlerCatch e false keys
      | (keys, none) => ⟨.success outbucket keys, true, keys⟩

/-! ## Specification-side derived definitions

Used to state theorems about the embedded code; each is a plain
restatement of one step of the code, total where the code's step is
guarded by the theorem's hypotheses. -/

/-- Did this call return normally? -/
def isOk {ε α : Type} : Except ε α → Bool
  | .ok _ => true
  | .error _ => false

/-- Returned value with a fallback (used only under an `isOk` hypothesis). -/
def okD {ε α : Type} : Except ε α → α → α
  | .ok a, _ => a
  | .error _, d => d

/-- A provider data row the code can consume without faulting: at least
the five positional columns, and a `float()`-parseable usage field. -/
def wellFormedPseRow (r : Row) : Bool :=
  decide (5 ≤ r.length) && isOk (pyFloat (pyGetD r 4))

/-- The usage record the code builds from a well-formed provider data
row. -/
def pseRecordOf (r : Row) : UsageRecord :=
  (pyGetD r 1 ++ " " ++ pyGetD r 2,
   pyGetD r 1 ++ " " ++ pyGetD r 3,
   okD (pyFloat (pyGetD r 4)) ⟨0, 0⟩)

/-- One provider data row's effect on the accumulator. -/
def pseAppendRow (a : Accum UsageRecord) (r : Row) : Accum UsageRecord :=
  a.append1 (pyGetD r 0) (pseRecordOf r)

/-- A sensor data row the code can consume without faulting. -/
def wellFormedGoveeRow (r : Row) : Bool :=
  decide (3 ≤ r.length) && isOk (pyFloat (pyGetD r 1)) &&
    isOk (pyFloat (pyGetD r 2))

/-- The sensor record the code builds from a well-formed sensor data
row. -/
def goveeRecordOf (r : Row) : SensorRecord :=
  (pyGetD r 0, okD (pyFloat (pyGetD r 1)) ⟨0, 0⟩,
   okD (pyFloat (pyGetD r 2)) ⟨0, 0⟩)

/-- The full series key a sensor file's rows are accumulated under. -/
def goveeKey (csv_path : String) : String :=
  goveeName csv_path ++ "_temp"

/-- One sensor data row's effect on the accumulator. -/
def goveeAppendRow (csv_path : String) (a : Accum SensorRecord)
    (r : Row) : Accum SensorRecord :=
  a.append1 (goveeKey csv_path) (goveeRecordOf r)

/-- Every series key of the accumulator holds at least one record. -/
def AccNonempty {α : Type} (a : Accum α) : Prop :=
  ∀ kv ∈ a, kv.2 ≠ ([] : List α)

/-! ## Concrete inputs used by witnesses and counterexamples -/

/-- The spec's one-row provider export (§8 example), as `csv.reader`
tokenises it. -/
def examplePseRows : CsvFile :=
  [["Name", "JOHN DOE"], ["Address", "X"], ["Account Number", "1"],
   ["Service", "Service 1"],
   ["TYPE", "DATE", "START TIME", "END TIME", "USAGE (kWh)", "NOTES"],
   ["Electric usage", "2024-12-01", "00:00", "00:30", "1.5", ""]]

/-- The spec example's zip: one `.csv` entry holding `examplePseRows`. -/
def examplePseZip : InputFile :=
  ⟨"export.zip", some [("data.csv", examplePseRows)], []⟩

/-- A `.zip`-named input whose bytes are not a valid zip container. -/
def badZipInput : InputFile := ⟨"bad.zip", none, []⟩

/-- A provider export with two data rows under two labels. -/
def twoLabelPseRows : CsvFile :=
  [["Name", "X"],
   ["TYPE", "DATE", "START TIME", "END TIME", "USAGE (kWh)", "NOTES"],
   ["Electric usage", "2024-12-01", "00:00", "00:30", "1.5", ""],
   ["Natural gas usage", "2024-12-01", "00:00", "00:30", "2.0", ""]]

/-- The data rows of `twoLabelPseRows`. -/
def twoLabelPseDataRows : CsvFile :=
  [["Electric usage", "2024-12-01", "00:00", "00:30", "1.5", ""],
   ["Natural gas usage", "2024-12-01", "00:00", "00:30", "2.0", ""]]

/-- A provider export whose second data row carries a label outside
`PSE_USAGE_TYPES`, *after* a valid `Electric usage` row. -/
def unknownLabelPseRows : CsvFile :=
  [["TYPE", "DATE", "START TIME", "END TIME", "USAGE (kWh)", "NOTES"],
   ["Electric usage", "2024-12-01", "00:00", "00:30", "1.5", ""],
   ["Bogus usage", "2024-12-01", "00:00", "00:30", "1.0", ""]]

/-- A zip carrying `unknownLabelPseRows`. -/
def unknownLabelZip : InputFile :=
  ⟨"export.zip", some [("data.csv", unknownLabelPseRows)], []⟩

/-- Like `unknownLabelZip` but with the unknown label's row first, so the
output loop hits the `KeyError` before writing any file. -/
def unknownFirstZip : InputFile :=
  ⟨"export.zip",
   some [("data.csv",
     [["TYPE", "DATE", "START TIME", "END TIME", "USAGE (kWh)", "NOTES"],
      ["Bogus usage", "2024-12-01", "00:00", "00:30", "1.0", ""],
      ["Electric usage", "2024-12-01", "00:00", "00:30", "1.5", ""]])],
   []⟩

/-- A valid sensor export input (filename without `_`, mixed case). -/
def sensorInput : InputFile :=
  ⟨"Kitchen.csv", none,
   [["Timestamp", "Temperature_Fahrenheit", "Relative_Humidity"],
    ["2024-12-01 00:00", "70.5", "45.0"],
    ["2024-12-02 00:00", "71.0", "46.0"]]⟩

/-- A sensor export with a recognized header row but zero data rows. -/
def headerOnlySensorInput : InputFile :=
  ⟨"kitchen_export.csv", none,
   [["Timestamp", "Temperature_Fahrenheit", "Relative_Humidity"]]⟩

/-! ## Helper lemmas -/

theorem pyGet_eq_ok (r : Row) (i : Nat) (h : i < r.length) :
    pyGet r i = .ok (pyGetD r i) := by
  unfold pyGet pyGetD
  cases hh : r.get? i with
  | none =>
    exact absurd (List.get?_eq_none.mp hh) (Nat.not_le_of_lt h)
  | some v => rfl

theorem parsePseRow_wf (a : Accum UsageRecord) (r : Row)
    (h : wellFormedPseRow r = true) :
    parsePseRow a r = .ok (pseAppendRow a r) := by
  unfold wellFormedPseRow at h
  rw [Bool.and_eq_true] at h
  obtain ⟨h5, hok⟩ := h
  have h5 : 5 ≤ r.length := of_decide_eq_true h5
  have g0 := pyGet_eq_ok r 0 (by omega)
  have g1 := pyGet_eq_ok r 1 (by omega)
  have g2 := pyGet_eq_ok r 2 (by omega)
  have g3 := pyGet_eq_ok r 3 (by omega)
  have g4 := pyGet_eq_ok r 4 (by omega)
  cases hf : pyFloat (pyGetD r 4) with
  | error e => rw [hf] at hok; simp [isOk] at hok
  | ok q =>
    simp [parsePseRow, pseAppendRow, pseRecordOf, okD, g0, g1, g2, g3, g4,
      hf, Bind.bind, Except.bind, Pure.pure, Except.pure]

theorem foldlM_parsePseRow (rows : List Row) :
    ∀ a : Accum UsageRecord, (∀ r ∈ rows, wellFormedPseRow r = true) →
      rows.foldlM parsePseRow a = .ok (rows.foldl pseAppendRow a) := by
  induction rows with
  | nil => intro a _; rfl
  | cons r rs ih =>
    intro a h
    have hr : wellFormedPseRow r = true := h r (List.mem_cons_self r rs)
    rw [List.foldlM_cons, parsePseRow_wf a r hr, List.foldl_cons]
    exact ih (pseAppendRow a r) (fun x hx => h x (List.mem_cons_of_mem r hx))

theorem Accum.size_append1 {α : Type} (a : Accum α) (k : String) (x : α) :
    (a.append1 k x).size = a.size + 1 := by
  induction a with
  | nil => rfl
  | cons kv rest ih =>
    obtain ⟨k0, v⟩ := kv
    unfold Accum.append1
    by_cases h : (k0 == k) = true
    · simp [h, Accum.size]; omega
    · simp only [h]
      simp [Accum.size] at ih ⊢
      omega

theorem size_foldl_pseAppendRow (rows : List Row) :
    ∀ a : Accum UsageRecord,
      (rows.foldl pseAppendRow a).size = a.size + rows.length := by
  induction rows with
  | nil => intro a; simp
  | cons r rs ih =>
    intro a
    rw [List.foldl_cons, ih, pseAppendRow, Accum.size_append1]
    simp
    omega

theorem parseGoveeRow_wf (name : String) (a : Accum SensorRecord) (r : Row)
    (h : wellFormedGoveeRow r = true) :
    parseGoveeRow name a r = .ok (a.append1 (name ++ "_temp") (goveeRecordOf r)) := by
  unfold wellFormedGoveeRow at h
  rw [Bool.and_eq_true, Bool.and_eq_true] at h
  obtain ⟨⟨h3, hok1⟩, hok2⟩ := h
  have h3 : 3 ≤ r.length := of_decide_eq_true h3
  have g0 := pyGet_eq_ok r 0 (by omega)
  have g1 := pyGet_eq_ok r 1 (by omega)
  have g2 := pyGet_eq_ok r 2 (by omega)
  cases hf1 : pyFloat (pyGetD r 1) with
  | error e => rw [hf1] at hok1; simp [isOk] at hok1
  | ok q1 =>
    cases hf2 : pyFloat (pyGetD r 2) with
    | error e => rw [hf2] at hok2; simp [isOk] at hok2
    | ok q2 =>
      simp [parseGoveeRow, goveeRecordOf, okD, g0, g1, g2, hf1, hf2,
        Bind.bind, Except.bind, Pure.pure, Except.pure]

theorem foldlM_parseGoveeRow (path : String) (rows : List Row) :
    ∀ a : Accum SensorRecord, (∀ r ∈ rows, wellFormedGoveeRow r = true) →
      rows.foldlM (parseGoveeRow (goveeName path)) a =
        .ok (rows.foldl (goveeAppendRow path) a) := by
  induction rows with
  | nil => intro a _; rfl
  | cons r rs ih =>
    intro a h
    have hr : wellFormedGoveeRow r = true := h r (List.mem_cons_self r rs)
    rw [List.foldlM_cons, parseGoveeRow_wf (goveeName path) a r hr,
      List.foldl_cons]
    exact ih (goveeAppendRow path a r)
      (fun x hx => h x (List.mem_cons_of_mem r hx))

theorem size_foldl_goveeAppendRow (path : String) (rows : List Row) :
    ∀ a : Accum SensorRecord,
      (rows.foldl (goveeAppendRow path) a).size = a.size + rows.length := by
  induction rows with
  | nil => intro a; simp
  | cons r rs ih =>
    intro a
    rw [List.foldl_cons, ih, goveeAppendRow, Accum.size_append1]
    simp
    omega

theorem splitChP_no_match (p : Char → Bool) (l : List Char)
    (h : ∀ c ∈ l, p c = false) : splitChP p l = [l] := by
  induction l with
  | nil => rfl
  | cons c cs ih =>
    have hc : p c = false := h c (List.mem_cons_self c cs)
    have hrest := ih (fun x hx => h x (List.mem_cons_of_mem c hx))
    unfold splitChP
    rw [hc, hrest]
    simp

theorem goveeKey_no_underscore (path : String)
    (h : ∀ c ∈ (basename path).toList, (c == '_') = false) :
    goveeKey path = pyLower (basename path) ++ "_temp" := by
  unfold goveeKey goveeName pySplitOn
  rw [splitChP_no_match _ _ h]
  rfl

theorem pyLast_cons {α : Type} (x : α) (xs : List α) :
    pyLast (x :: xs) = .ok (xs.getLastD x) := by
  induction xs generalizing x with
  | nil => rfl
  | cons y ys ih => rw [List.getLastD_cons]; exact ih y

theorem foldlM_append_except {σ α ε : Type} (g : σ → α → Except ε σ)
    (l1 l2 : List α) :
    ∀ init : σ, (l1 ++ l2).foldlM g init =
      (l1.foldlM g init).bind (fun s => l2.foldlM g s) := by
  induction l1 with
  | nil => intro init; simp [Except.bind, Pure.pure, Except.pure]
  | cons a l1 ih =>
    intro init
    rw [List.cons_append, List.foldlM_cons, List.foldlM_cons]
    cases h : g init a with
    | error e => simp [h, Bind.bind, Except.bind]
    | ok s => simp [h, Bind.bind, Except.bind, ih s]

theorem accNonempty_append1 {α : Type} (a : Accum α) (k : String) (x : α)
    (h : AccNonempty a) : AccNonempty (a.append1 k x) := by
  induction a with
  | nil =>
    intro kv hkv
    simp [Accum.append1] at hkv
    simp [hkv]
  | cons kv0 rest ih =>
    obtain ⟨k0, v⟩ := kv0
    intro kv hkv
    unfold Accum.append1 at hkv
    by_cases he : (k0 == k) = true
    · rw [if_pos he] at hkv
      rcases List.mem_cons.mp hkv with h1 | h2
      · simp [h1]
      · exact h kv (List.mem_cons_of_mem _ h2)
    · rw [if_neg he] at hkv
      rcases List.mem_cons.mp hkv with h1 | h2
      · exact h kv (h1 ▸ List.mem_cons_self _ _)
      · exact ih (fun kv2 hkv2 => h kv2 (List.mem_cons_of_mem _ hkv2)) kv h2

theorem parsePseRow_shape (a : Accum UsageRecord) (r : Row) :
    (∃ e, parsePseRow a r = .error e) ∨
    (∃ k x, parsePseRow a r = .ok (a.append1 k x)) := by
  unfold parsePseRow
  cases h1 : pyGet r 1 with
  | error e => exact .inl ⟨e, by simp [h1, Bind.bind, Except.bind]⟩
  | ok date =>
    cases h2 : pyGet r 2 with
    | error e => exact .inl ⟨e, by simp [h1, h2, Bind.bind, Except.bind]⟩
    | ok t2 =>
      cases h3 : pyGet r 3 with
      | error e => exact .inl ⟨e, by simp [h1, h2, h3, Bind.bind, Except.bind]⟩
      | ok t3 =>
        cases h4 : pyGet r 4 with
        | error e =>
          exact .inl ⟨e, by simp [h1, h2, h3, h4, Bind.bind, Except.bind]⟩
        | ok t4 =>
          cases h5 : pyFloat t4 with
          | error e =>
            exact .inl ⟨e, by simp [h1, h2, h3, h4, h5, Bind.bind, Except.bind]⟩
          | ok q =>
            cases h0 : pyGet r 0 with
            | error e =>
              exact .inl ⟨e,
                by simp [h1, h2, h3, h4, h5, h0, Bind.bind, Except.bind]⟩
            | ok label =>
              exact .inr ⟨label, (date ++ " " ++ t2, date ++ " " ++ t3, q),
                by simp [h1, h2, h3, h4, h5, h0, Bind.bind, Except.bind,
                  Pure.pure, Except.pure]⟩

theorem parseGoveeRow_shape (name : String) (a : Accum SensorRecord)
    (r : Row) :
    (∃ e, parseGoveeRow name a r = .error e) ∨
    (∃ k x, parseGoveeRow name a r = .ok (a.append1 k x)) := by
  unfold parseGoveeRow
  cases h0 : pyGet r 0 with
  | error e => exact .inl ⟨e, by simp [h0, Bind.bind, Except.bind]⟩
  | ok ts =>
    cases h1 : pyGet r 1 with
    | error e => exact .inl ⟨e, by simp [h0, h1, Bind.bind, Except.bind]⟩
    | ok s1 =>
      cases hf1 : pyFloat s1 with
      | error e =>
        exact .inl ⟨e, by simp [h0, h1, hf1, Bind.bind, Except.bind]⟩
      | ok q1 =>
        cases h2 : pyGet r 2 with
        | error e =>
          exact .inl ⟨e, by simp [h0, h1, hf1, h2, Bind.bind, Except.bind]⟩
        | ok s2 =>
          cases hf2 : pyFloat s2 with
          | error e =>
            exact .inl ⟨e,
              by simp [h0, h1, hf1, h2, hf2, Bind.bind, Except.bind]⟩
          | ok q2 =>
            exact .inr ⟨name ++ "_temp", (ts, q1, q2),
              by simp [h0, h1, hf1, h2, hf2, Bind.bind, Except.bind,
                Pure.pure, Except.pure]⟩

theorem foldlM_preserve {σ α ε : Type} (P : σ → Prop) (g : σ → α → Except ε σ)
    (hg : ∀ s a s2, g s a = .ok s2 → P s → P s2) (l : List α) :
    ∀ s s2, l.foldlM g s = .ok s2 → P s → P s2 := by
  induction l with
  | nil =>
    intro s s2 h hp
    simp [List.foldlM_nil, Pure.pure, Except.pure] at h
    exact h ▸ hp
  | cons a l ih =>
    intro s s2 h hp
    rw [List.foldlM_cons] at h
    cases ha : g s a with
    | error e => rw [ha] at h; simp [Bind.bind, Except.bind] at h
    | ok s1 =>
      rw [ha] at h
      simp only [Bind.bind, Except.bind] at h
      exact ih s1 s2 h (hg s a s1 ha hp)

theorem parse_pse_csv_nonempty (file : CsvFile) (a a2 : Accum UsageRecord)
    (h : parse_pse_csv file a = .ok a2) (hne : AccNonempty a) :
    AccNonempty a2 := by
  unfold parse_pse_csv at h
  cases hs : skipToTypeHeader file with
  | error e => rw [hs] at h; simp [Bind.bind, Except.bind] at h
  | ok rest =>
    rw [hs] at h
    simp only [Bind.bind, Except.bind] at h
    refine foldlM_preserve AccNonempty parsePseRow ?_ rest a a2 h hne
    intro s r s2 hres hp
    rcases parsePseRow_shape s r with ⟨e, he⟩ | ⟨k, x, hk⟩
    · rw [he] at hres; cases hres
    · rw [hk] at hres
      injection hres with h2
      exact h2 ▸ accNonempty_append1 s k x hp

theorem parse_govee_csv_nonempty (path : String) (file : CsvFile)
    (a a2 : Accum SensorRecord) (h : parse_govee_csv path file a = .ok a2)
    (hne : AccNonempty a) : AccNonempty a2 := by
  unfold parse_govee_csv at h
  cases file with
  | nil => cases h
  | cons hdr rest =>
    refine foldlM_preserve AccNonempty (parseGoveeRow (goveeName path)) ?_
      rest a a2 h hne
    intro s r s2 hres hp
    rcases parseGoveeRow_shape (goveeName path) s r with ⟨e, he⟩ | ⟨k, x, hk⟩
    · rw [he] at hres; cases hres
    · rw [hk] at hres
      injection hres with h2
      exact h2 ▸ accNonempty_append1 s k x hp

/-- The invariant of C9 on a whole conversion state. -/
def StateNonempty (st : ConvertState) : Prop :=
  AccNonempty st.pse_data ∧ AccNonempty st.govee_data

theorem processZipBranch_nonempty (f : InputFile) (st st2 : ConvertState)
    (h : processZipBranch f st = .ok st2) (hne : StateNonempty st) :
    StateNonempty st2 := by
  unfold processZipBranch at h
  by_cases hz : pyEndsWith f.path ".zip" = true
  · rw [if_pos hz] at h
    cases hext : extract_zip f with
    | error e => rw [hext] at h; cases h
    | ok entries =>
      rw [hext] at h
      simp only [Bind.bind, Except.bind] at h
      cases hfold : entries.foldlM
          (fun acc entry =>
            if pyEndsWith entry.1 ".csv" then parse_pse_csv entry.2 acc
            else .ok acc) st.pse_data with
      | error e => rw [hfold] at h; cases h
      | ok pse =>
        rw [hfold] at h
        simp only [Pure.pure, Except.pure] at h
        injection h with h2
        subst h2
        refine ⟨?_, hne.2⟩
        refine foldlM_preserve AccNonempty _ ?_ entries st.pse_data pse
          hfold hne.1
        intro s entry s2 hres hp
        by_cases hc : pyEndsWith entry.1 ".csv" = true
        · rw [if_pos hc] at hres
          exact parse_pse_csv_nonempty entry.2 s s2 hres hp
        · rw [if_neg hc] at hres
          injection hres with h3
          exact h3 ▸ hp
  · rw [if_neg hz] at h
    injection h with h2
    exact h2 ▸ hne

theorem processCsvBranch_nonempty (f : InputFile) (st st2 : ConvertState)
    (h : processCsvBranch f st = .ok st2) (hne : StateNonempty st) :
    StateNonempty st2 := by
  unfold processCsvBranch at h
  by_cases hc : pyEndsWith f.path ".csv" = true
  · rw [if_pos hc] at h
    cases hg : parse_govee_csv f.path f.csvRows st.govee_data with
    | error e => rw [hg] at h; cases h
    | ok govee =>
      rw [hg] at h
      simp only [Bind.bind, Except.bind, Pure.pure, Except.pure] at h
      injection h with h2
      subst h2
      exact ⟨hne.1, parse_govee_csv_nonempty f.path f.csvRows _ _ hg hne.2⟩
  · rw [if_neg hc] at h
    injection h with h2
    exact h2 ▸ hne

theorem processFile_nonempty (f : InputFile) (st st2 : ConvertState)
    (h : processFile f st = .ok st2) (hne : StateNonempty st) :
    StateNonempty st2 := by
  unfold processFile at h
  cases hz : processZipBranch f st with
  | error e => rw [hz] at h; cases h
  | ok st1 =>
    rw [hz] at h
    simp only [Bind.bind, Except.bind] at h
    exact processCsvBranch_nonempty f st1 st2 h
      (processZipBranch_nonempty f st st1 hz hne)

theorem writePseLoop_append_ok (l1 l2 : Accum UsageRecord) :
    ∀ outs outs1, writePseLoop l1 outs = (outs1, none) →
      writePseLoop (l1 ++ l2) outs = writePseLoop l2 outs1 := by
  induction l1 with
  | nil =>
    intro outs outs1 h
    injection h with h1 _
    rw [List.nil_append, h1]
  | cons kv rest ih =>
    obtain ⟨usage_type, data⟩ := kv
    intro outs outs1 h
    rw [List.cons_append]
    cases hl : lookupUsageType usage_type with
    | error e =>
      simp only [writePseLoop, hl] at h
      injection h with _ h2
      cases h2
    | ok tnu =>
      obtain ⟨type_name, units⟩ := tnu
      cases hr : get_data_range_dates (fun r : UsageRecord => r.1) data with
      | error e =>
        simp only [writePseLoop, hl, hr] at h
        injection h with _ h2
        cases h2
      | ok fl =>
        obtain ⟨first_date, last_date⟩ := fl
        simp only [writePseLoop, hl, hr] at h ⊢
        exact ih _ _ h

theorem writePseLoop_unknown_head (bad : String) (data : List UsageRecord)
    (post : Accum UsageRecord) (outs : List OutFile)
    (h : PSE_USAGE_TYPES.find? (fun kv => kv.1 == bad) = none) :
    writePseLoop ((bad, data) :: post) outs = (outs, some (.keyError bad)) := by
  unfold writePseLoop lookupUsageType
  rw [h]

theorem processFile_badZip (f : InputFile) (st : ConvertState)
    (hzip : pyEndsWith f.path ".zip" = true) (hbad : f.zipEntries = none) :
    processFile f st =
      .error (.systemExit "Error: File is not a zip file or is corrupted") := by
  simp [processFile, processZipBranch, extract_zip, hzip, hbad,
    Bind.bind, Except.bind]

theorem runParseStage_split (pre rest : List InputFile) :
    runParseStage (pre ++ rest) =
      (runParseStage pre).bind
        (fun st => rest.foldlM (fun s f => processFile f s) st) := by
  unfold runParseStage
  exact foldlM_append_except _ pre rest _

theorem handlerCatch_props (e : PyErr) (u : List String) (ob : String) :
    (∀ e2, (handlerCatch e false u).outcome = .escaped e2 →
      e2.isException = false) ∧
    ((handlerCatch e false u).deletedSource = true ↔
      ∃ keys, (handlerCatch e false u).outcome = .success ob keys) := by
  unfold handlerCatch
  by_cases he : e.isException = true
  · rw [if_pos he]
    refine ⟨fun e2 h2 => ?_, ?_, ?_⟩
    · simp at h2
    · intro h; simp at h
    · rintro ⟨keys, hk⟩; simp at hk
  · rw [if_neg he]
    refine ⟨fun e2 h2 => ?_, ?_, ?_⟩
    · simp only at h2
      injection h2 with h3
      rw [← h3]
      exact Bool.not_eq_true _ ▸ he
    · intro h; simp at h
    · rintro ⟨keys, hk⟩; simp at hk

/-! ## Claim theorems -/

/-- C1: for the spec's one-row provider export (preamble rows, the `TYPE`
header row, then the single data row `Electric usage,2024-12-01,00:00,
00:30,1.5,`), a run of `convert_files` over its zip completes without
error and produces exactly one file, `electricity_20241201_20241201.csv`,
whose first line is `start,end,usage_kwh` and whose second line is
`2024-12-01 00:00,2024-12-01 00:30,1.5`. -/
theorem convert_files_spec_example :
    (convert_files [examplePseZip]).error = none ∧
    (convert_files [examplePseZip]).written.map
        (fun f => (f.name, outFileLines f)) =
      [("electricity_20241201_20241201.csv",
        ["start,end,usage_kwh",
         "2024-12-01 00:00,2024-12-01 00:30,1.5"])] := by
  decide

/-- C2: on a valid provider export — some row whose first field is `TYPE`
(everything up to and including it is discarded), followed only by
well-formed data rows — `parse_pse_csv` succeeds and appends, for each
data row, exactly one record `(date ++ " " ++ start_time,
date ++ " " ++ end_time, float(usage))` under key `row[0]`
(that is `pseAppendRow`); consequently the total number of accumulated
records grows by exactly the number of data rows after the `TYPE` header
line. -/
theorem parse_pse_csv_valid_spec (file rest : CsvFile)
    (acc : Accum UsageRecord)
    (hskip : skipToTypeHeader file = .ok rest)
    (hwf : ∀ r ∈ rest, wellFormedPseRow r = true) :
    parse_pse_csv file acc = .ok (rest.foldl pseAppendRow acc) ∧
    (rest.foldl pseAppendRow acc).size = acc.size + rest.length := by
  refine ⟨?_, size_foldl_pseAppendRow rest acc⟩
  unfold parse_pse_csv
  rw [hskip]
  simp only [Bind.bind, Except.bind]
  exact foldlM_parsePseRow rest acc hwf

/-- Witness for C2 at a concrete two-row export. -/
theorem parse_pse_csv_valid_spec_witness :
    parse_pse_csv twoLabelPseRows [] =
      .ok (twoLabelPseDataRows.foldl pseAppendRow []) ∧
    (twoLabelPseDataRows.foldl pseAppendRow []).size =
      Accum.size ([] : Accum UsageRecord) + twoLabelPseDataRows.length :=
  parse_pse_csv_valid_spec twoLabelPseRows twoLabelPseDataRows []
    (by decide) (by decide)

/-- C3: on a valid sensor export, `parse_govee_csv` discards exactly the
first row unconditionally and appends one record per remaining row under
the series key `goveeKey path` (the filename's substring before the first
`_`, lower-cased, with `_temp` appended), so the record count grows by
the total number of rows minus one; and when the filename contains no
`_`, that key is the whole lower-cased filename with `_temp` appended. -/
theorem parse_govee_csv_valid_spec (path : String) (hdr : Row)
    (rest : CsvFile) (acc : Accum SensorRecord)
    (hwf : ∀ r ∈ rest, wellFormedGoveeRow r = true) :
    parse_govee_csv path (hdr :: rest) acc =
      .ok (rest.foldl (goveeAppendRow path) acc) ∧
    (rest.foldl (goveeAppendRow path) acc).size = acc.size + rest.length ∧
    ((∀ c ∈ (basename path).toList, (c == '_') = false) →
      goveeKey path = pyLower (basename path) ++ "_temp") := by
  refine ⟨?_, size_foldl_goveeAppendRow path rest acc,
    goveeKey_no_underscore path⟩
  unfold parse_govee_csv
  exact foldlM_parseGoveeRow path rest acc hwf

/-- Witness for C3 at a concrete export whose filename has no `_`. -/
theorem parse_govee_csv_valid_spec_witness :
    parse_govee_csv "Kitchen.csv"
        (["Timestamp", "Temperature_Fahrenheit", "Relative_Humidity"] ::
          [["2024-12-01 00:00", "70.5", "45.0"],
           ["2024-12-02 00:00", "71.0", "46.0"]]) [] =
      .ok ([["2024-12-01 00:00", "70.5", "45.0"],
            ["2024-12-02 00:00", "71.0", "46.0"]].foldl
        (goveeAppendRow "Kitchen.csv") []) ∧
    ([["2024-12-01 00:00", "70.5", "45.0"],
      ["2024-12-02 00:00", "71.0", "46.0"]].foldl
        (goveeAppendRow "Kitchen.csv") []).size =
      Accum.size ([] : Accum SensorRecord) +
        [["2024-12-01 00:00", "70.5", "45.0"],
         ["2024-12-02 00:00", "71.0", "46.0"]].length ∧
    ((∀ c ∈ (basename "Kitchen.csv").toList, (c == '_') = false) →
      goveeKey "Kitchen.csv" = pyLower (basename "Kitchen.csv") ++ "_temp") :=
  parse_govee_csv_valid_spec "Kitchen.csv"
    ["Timestamp", "Temperature_Fahrenheit", "Relative_Humidity"]
    [["2024-12-01 00:00", "70.5", "45.0"],
     ["2024-12-02 00:00", "71.0", "46.0"]] [] (by decide)

/-- C4 counterexample: with the unknown label `Bogus usage` accumulated
before `Electric usage`, the run fails with that `KeyError` but writes NO
file at all — the valid label's `electricity_…` file IS lost, refuting
"no output files for other valid labels present in the accumulator are
lost". -/
theorem convert_files_unknown_label_cex :
    convert_files [unknownFirstZip] =
      ⟨[], some (.keyError "Bogus usage")⟩ := by
  decide

/-- C4 amended: if the provider accumulator is `pre ++ (bad, data) :: post`
with every label of `pre` handled cleanly and `bad` absent from
`PSE_USAGE_TYPES`, the run fails fatally with `KeyError bad`; no file is
written for `bad`, the files of the labels iterated *before* it are
written, and the files of the labels *after* it are lost. -/
theorem convert_files_unknown_label (files : List InputFile)
    (st : ConvertState) (pre post : Accum UsageRecord) (bad : String)
    (data : List UsageRecord) (outs0 : List OutFile)
    (hrun : runParseStage files = .ok st)
    (hsplit : st.pse_data = pre ++ (bad, data) :: post)
    (hpre : writePseLoop pre [] = (outs0, none))
    (hbad : PSE_USAGE_TYPES.find? (fun kv => kv.1 == bad) = none) :
    convert_files files = ⟨outs0, some (.keyError bad)⟩ := by
  simp only [convert_files, hrun]
  rw [hsplit, writePseLoop_append_ok pre ((bad, data) :: post) [] outs0 hpre,
    writePseLoop_unknown_head bad data post outs0 hbad]

/-- Witness for the amended C4: `Electric usage` accumulated before the
unknown `Bogus usage`; the electricity file is written, then the run
fails with the `KeyError`. -/
theorem convert_files_unknown_label_witness :
    convert_files [unknownLabelZip] =
      ⟨[⟨"electricity_20241201_20241201.csv", ["start", "end", "usage_kwh"],
         [["2024-12-01 00:00", "2024-12-01 00:30", "1.5"]]⟩],
       some (.keyError "Bogus usage")⟩ :=
  convert_files_unknown_label [unknownLabelZip]
    ⟨[("Electric usage",
        [("2024-12-01 00:00", "2024-12-01 00:30", ⟨15, 1⟩)]),
      ("Bogus usage",
        [("2024-12-01 00:00", "2024-12-01 00:30", ⟨10, 1⟩)])], []⟩
    [("Electric usage",
      [("2024-12-01 00:00", "2024-12-01 00:30", ⟨15, 1⟩)])]
    [] "Bogus usage"
    [("2024-12-01 00:00", "2024-12-01 00:30", ⟨10, 1⟩)]
    [⟨"electricity_20241201_20241201.csv", ["start", "end", "usage_kwh"],
      [["2024-12-01 00:00", "2024-12-01 00:30", "1.5"]]⟩]
    (by decide) (by decide) (by decide) (by decide)

/-- C5 counterexample: an invalid archive makes `extract_zip` call
`sys.exit()`; the raised `SystemExit` is not an `Exception`, so it is NOT
caught by the handler's `except Exception` clause — it escapes instead of
becoming a structured error result, refuting "every failure … (including
an invalid archive) is caught at the handler boundary". -/
theorem lambda_handler_bad_zip_escapes :
    lambda_handler "out" (.ok badZipInput) (fun _ => none) =
      ⟨.escaped (.systemExit "Error: File is not a zip file or is corrupted"),
       false, []⟩ := by
  decide

/-- C5 amended: every failure raised as a Python `Exception` anywhere in
the download/convert/upload flow is caught at the handler boundary and
converted into a structured error result; only a non-`Exception` raise
(`SystemExit`, from an invalid archive) can escape the handler; and the
source object is deleted exactly on full success. -/
theorem lambda_handler_boundary (outbucket : String)
    (download : Except PyErr InputFile)
    (uploadErr : String → Option PyErr) :
    (∀ e, (lambda_handler outbucket download uploadErr).outcome =
        .escaped e → e.isException = false) ∧
    ((lambda_handler outbucket download uploadErr).deletedSource = true ↔
      ∃ keys, (lambda_handler outbucket download uploadErr).outcome =
        .success outbucket keys) := by
  unfold lambda_handler
  cases download with
  | error e => exact handlerCatch_props e [] outbucket
  | ok file =>
    simp only []
    cases herr : (convert_files [file]).error with
    | some e => exact handlerCatch_props e [] outbucket
    | none =>
      cases hu : uploadLoop uploadErr (convert_files [file]).written [] with
      | mk keys oe =>
        cases oe with
        | some e => exact handlerCatch_props e keys outbucket
        | none =>
          refine ⟨fun e2 h2 => ?_, ?_, ?_⟩
          · simp at h2
          · intro _; exact ⟨keys, rfl⟩
          · intro _; rfl

/-- Witness for the amended C5 at a concrete successful run. -/
theorem lambda_handler_boundary_witness :
    (∀ e, (lambda_handler "out" (.ok sensorInput) (fun _ => none)).outcome =
        .escaped e → e.isException = false) ∧
    ((lambda_handler "out" (.ok sensorInput) (fun _ => none)).deletedSource =
        true ↔
      ∃ keys, (lambda_handler "out" (.ok sensorInput)
        (fun _ => none)).outcome = .success "out" keys) :=
  lambda_handler_boundary "out" (.ok sensorInput) (fun _ => none)

/-- C6: on a non-empty record sequence whose leading fields are
`date time` strings (their whitespace split starts with the date),
`get_data_range_dates` returns the first and last records' dates with the
`-` separators removed; with a single record this yields `(d, d)` (the
`xs = []` instance). -/
theorem get_data_range_dates_spec {ρ : Type} (field0 : ρ → String) (x : ρ)
    (xs : List ρ) (d1 : String) (r1 : List String) (d2 : String)
    (r2 : List String)
    (h1 : pySplitWs (field0 x) = d1 :: r1)
    (h2 : pySplitWs (field0 (xs.getLastD x)) = d2 :: r2) :
    get_data_range_dates field0 (x :: xs) =
      .ok (stripDash d1, stripDash d2) := by
  unfold get_data_range_dates
  simp only [pyFirst, pyLast_cons, Bind.bind, Except.bind, h1, h2,
    Pure.pure, Except.pure]

/-- Witness for C6: a single record, yielding `(d, d)`. -/
theorem get_data_range_dates_spec_witness :
    get_data_range_dates (fun r : UsageRecord => r.1)
      [("2024-12-01 00:00", "2024-12-01 00:30", ⟨15, 1⟩)] =
      .ok ("20241201", "20241201") :=
  get_data_range_dates_spec (fun r : UsageRecord => r.1)
    ("2024-12-01 00:00", "2024-12-01 00:30", ⟨15, 1⟩) []
    "2024-12-01" ["00:00"] "2024-12-01" ["00:00"] (by decide) (by decide)

/-- C7: a `.zip`-suffixed input whose bytes are not a valid zip container
makes the run fail with the invalid-archive termination
(`sys.exit` after `Error: File is not a zip file or is corrupted`), and —
since all output writing happens only after the input loop has consumed
every input — no output file is written for any series. -/
theorem convert_files_bad_zip (pre post : List InputFile) (f : InputFile)
    (hzip : pyEndsWith f.path ".zip" = true) (hbad : f.zipEntries = none)
    (hpre : ∃ st, runParseStage pre = .ok st) :
    convert_files (pre ++ f :: post) =
      ⟨[], some (.systemExit "Error: File is not a zip file or is corrupted")⟩ := by
  obtain ⟨st, hst⟩ := hpre
  have hrun : runParseStage (pre ++ f :: post) =
      .error (.systemExit "Error: File is not a zip file or is corrupted") := by
    rw [runParseStage_split, hst]
    simp only [Except.bind]
    rw [List.foldlM_cons, processFile_badZip f st hzip hbad]
    simp [Bind.bind, Except.bind]
  simp [convert_files, hrun]

/-- Witness for C7 with the invalid archive as the only input. -/
theorem convert_files_bad_zip_witness :
    convert_files ([] ++ badZipInput :: []) =
      ⟨[], some (.systemExit "Error: File is not a zip file or is corrupted")⟩ :=
  convert_files_bad_zip [] [] badZipInput (by decide) rfl
    ⟨⟨[], []⟩, rfl⟩

/-- C8: the orchestrator's per-path step is the sequential composition of
the two independent suffix checks (two separate `if`s, both always
evaluated, not an `if`/`elif` chain), and a path matching neither suffix
is silently ignored: the state is returned unchanged and no error is
raised. -/
theorem processFile_classification (f : InputFile) (st : ConvertState) :
    processFile f st =
      (processZipBranch f st).bind (processCsvBranch f) ∧
    (pyEndsWith f.path ".zip" = false → pyEndsWith f.path ".csv" = false →
      processFile f st = .ok st) := by
  constructor
  · rfl
  · intro h1 h2
    simp [processFile, processZipBranch, processCsvBranch, h1, h2,
      Bind.bind, Except.bind, Pure.pure, Except.pure]

/-- Witness for C8 at a `.txt` path. -/
theorem processFile_classification_witness :
    (processFile ⟨"notes.txt", none, []⟩ ⟨[], []⟩ =
      (processZipBranch ⟨"notes.txt", none, []⟩ ⟨[], []⟩).bind
        (processCsvBranch ⟨"notes.txt", none, []⟩)) ∧
    processFile ⟨"notes.txt", none, []⟩ ⟨[], []⟩ = .ok ⟨[], []⟩ :=
  ⟨(processFile_classification ⟨"notes.txt", none, []⟩ ⟨[], []⟩).1,
   (processFile_classification ⟨"notes.txt", none, []⟩ ⟨[], []⟩).2
     (by decide) (by decide)⟩

/-- C9: after any successful input loop, every series key present in
either accumulator maps to a non-empty record list (a key only comes into
existence by `append1`, at the moment its first record is appended), so
the data handed to `get_data_range_dates` at both output-loop call sites
— the accumulators' entry values — is never empty, even when some export
had a recognized header but zero data rows (then no key was created at
all). -/
theorem runParseStage_nonempty (files : List InputFile)
    (st : ConvertState) (h : runParseStage files = .ok st) :
    AccNonempty st.pse_data ∧ AccNonempty st.govee_data := by
  unfold runParseStage at h
  refine foldlM_preserve StateNonempty _ ?_ files ⟨[], []⟩ st h ?_
  · intro s f s2 hres hp
    exact processFile_nonempty f s s2 hres hp
  · exact ⟨fun kv hkv => absurd hkv (List.not_mem_nil kv),
      fun kv hkv => absurd hkv (List.not_mem_nil kv)⟩

/-- Witness for C9: a header-only sensor export creates no key at all. -/
theorem runParseStage_nonempty_witness :
    AccNonempty (⟨[], []⟩ : ConvertState).pse_data ∧
    AccNonempty (⟨[], []⟩ : ConvertState).govee_data :=
  runParseStage_nonempty [headerOnlySensorInput] ⟨[], []⟩ (by decide)

/-- C10: a provider export whose data row after the `TYPE` header has
fewer than five fields makes `parse_pse_csv` fault with an unguarded
out-of-bounds field access (`IndexError`) — not with either of the spec's
`MalformedInput` modes (missing header marker / non-numeric usage,
i.e. `StopIteration` / `ValueError`). -/
theorem parse_pse_short_row_faults :
    parse_pse_csv [["TYPE"], ["Electric usage", "2024-12-01"]] [] =
      .error .indexError := by
  decide

end HomeData
